import Mathlib

/-!
Shallow embedding of the analytics core of `backend/advanced_analytics.py`
(class `AdvancedAnalytics`): `detect_trends`, `detect_anomalies`,
`segment_customers` (with `_determine_cluster_type`),
`calculate_correlations` (with `_interpret_correlation`) and
`generate_forecast`.

Modelling conventions, used consistently below:

* A cell of a pandas frame that has already been coerced to a numeric or
  datetime value is `Option ℚ` / `Option ℤ` (`none` models `NaN` / `NaT`);
  dates are day numbers since the Unix epoch.
* Quantities the Python code obtains by rational arithmetic on such cells
  are modelled exactly in `ℚ`; quantities that involve a square root
  (standard deviations, Pearson denominators) live in `ℝ`; the IEEE
  specials `inf`/`nan` that `pct_change` can produce are modelled by the
  dedicated type `PFloat`.
* A dict return value `{"error": msg}` is `Except.error msg`, a success
  dict is `Except.ok` of a payload structure.
* The scikit-learn estimators (`IsolationForest`, `KMeans`) are seeded
  with a fixed integer `random_state`, so each `fit` is a pure function of
  the hyper-parameters and the input matrix; they are modelled as explicit
  function-valued parameters (`IsoLib`, `KMeansLib`).
-/

namespace Olynk

/-- `Series.mean` over clean numeric data.  Callers below only apply it to
nonempty lists (Lean's `x / 0 = 0` junk value is never relied upon). -/
def mean (xs : List ℚ) : ℚ := xs.sum / xs.length

/-- Population variance, the square of `np.std`. -/
def popVar (xs : List ℚ) : ℚ := mean (xs.map fun x => (x - mean xs) ^ 2)

/-- Sample variance with `ddof = 1`, the square of `Series.std`;
`none` models the `NaN` that pandas returns on fewer than two values. -/
def sampleVar (xs : List ℚ) : Option ℚ :=
  if xs.length < 2 then none
  else some ((xs.map fun x => (x - mean xs) ^ 2).sum / ((xs.length : ℚ) - 1))

/-- The last `n` elements of a list: `Series.tail(n)` / `rolling` windows
clipped at the series start. -/
def takeLast (n : ℕ) (xs : List α) : List α := xs.drop (xs.length - n)

/-- A double that can also hold the IEEE specials, as produced by
`pct_change` (division by a zero previous value). -/
inductive PFloat where
  | nan : PFloat
  | inf : Bool → PFloat
  | fin : ℚ → PFloat
deriving DecidableEq

/-- IEEE addition on `PFloat` (`inf` of opposite signs gives `nan`). -/
def pfAdd : PFloat → PFloat → PFloat
  | .nan, _ => .nan
  | _, .nan => .nan
  | .inf s, .inf t => if s = t then .inf s else .nan
  | .inf s, .fin _ => .inf s
  | .fin _, .inf t => .inf t
  | .fin a, .fin b => .fin (a + b)

def pfIsNaN : PFloat → Bool
  | .nan => true
  | _ => false

/-- `Series.mean` with pandas' default `skipna=True`: `NaN` entries are
dropped, an all-`NaN` (or empty) series has mean `NaN`, and infinities
propagate through the sum. -/
def pfMean (xs : List PFloat) : PFloat :=
  let ys := xs.filter fun x => !(pfIsNaN x)
  if ys.isEmpty then .nan
  else
    match ys.foldl pfAdd (.fin 0) with
    | .fin s => .fin (s / ys.length)
    | .inf s => .inf s
    | .nan => .nan

/-- `Series.pct_change(periods=k)`: entry `i` is
`(x_i - x_(i-k)) / x_(i-k)`, `NaN` for the first `k` entries, and the
IEEE `inf`/`nan` specials when the previous value is zero. -/
def pctChange (k : ℕ) (xs : List ℚ) : List PFloat :=
  (List.range xs.length).map fun i =>
    if i < k then .nan
    else
      let prev := xs.getD (i - k) 0
      let cur := xs.getD i 0
      if prev = 0 then (if cur = 0 then .nan else .inf (decide (0 < cur)))
      else .fin ((cur - prev) / prev)

/-- `rolling(window=w, min_periods=1).mean()`: entry `i` is the mean of
the trailing `w`-window of the first `i + 1` values. -/
def rollingMeans (w : ℕ) (xs : List ℚ) : List ℚ :=
  (List.range xs.length).map fun i => mean (takeLast w (xs.take (i + 1)))

/-- `Timestamp.dayofweek` (Monday = 0) of a day number since the epoch;
1970-01-01 was a Thursday. -/
def dayOfWeek (d : ℤ) : ℕ := ((d + 3) % 7).toNat

/-- First-degree `np.polyfit`: least-squares slope and intercept over
`x = 0, 1, ..., n-1`.  The denominator is positive whenever the list has
at least two entries; all call sites below are guarded accordingly. -/
def polyfit1 (ys : List ℚ) : ℚ × ℚ :=
  let n : ℚ := ys.length
  let xm : ℚ := (n - 1) / 2
  let ym := mean ys
  let sxx := ((List.range ys.length).map fun i => ((i : ℚ) - xm) ^ 2).sum
  let sxy := (ys.enum.map fun p => ((p.1 : ℚ) - xm) * (p.2 - ym)).sum
  (sxy / sxx, ym - sxy / sxx * xm)

/-- Rows of the two selected frame columns after
`pd.to_datetime(..., errors='coerce')` and
`dropna(subset=[date_column, value_column])`: keep the rows where both
the parsed date and the numeric value are present. -/
def validRows (rows : List (Option ℤ × Option ℚ)) : List (ℤ × ℚ) :=
  rows.filterMap fun r =>
    match r with
    | (some d, some v) => some (d, v)
    | _ => none

/-- `sort_values(date_column)` on the valid rows (modelled with a stable
sort; the claims and the source never depend on the order of equal
dates). -/
def sortedRows (rows : List (Option ℤ × Option ℚ)) : List (ℤ × ℚ) :=
  List.insertionSort (fun a b => a.1 ≤ b.1) (validRows rows)

/-- The date-sorted value series that the trend and forecast analyses
work on. -/
def sortedValues (rows : List (Option ℤ × Option ℚ)) : List ℚ :=
  (sortedRows rows).map (·.2)

/-- Success payload of `detect_trends`. -/
structure TrendPayload where
  trend_direction : String
  trend_strength : String
  growth_rate_7d : PFloat
  growth_rate_30d : PFloat
  /-- `none` models the `NaN` that arises when only one weekday occurs
  (sample std of a single group mean). -/
  seasonality_score : Option ℝ
  /-- `moving_averages["7_day"]`. -/
  ma_7 : ℚ
  /-- `moving_averages["30_day"]`. -/
  ma_30 : ℚ
  data_points : ℕ

/-- The payload built in the successful branch of `detect_trends`. -/
noncomputable def trendPayload (rows : List (Option ℤ × Option ℚ))
    (window_days : ℕ) : TrendPayload :=
  let sorted := sortedRows rows
  let vals := sorted.map (·.2)
  let recent := takeLast window_days vals
  let slope := (polyfit1 recent).1
  let weeklyAvg := (List.range 7).filterMap fun d =>
    let g := (sorted.filter fun r => dayOfWeek r.1 = d).map (·.2)
    if g.isEmpty then none else some (mean g)
  { trend_direction := if 0 < slope then "increasing" else "decreasing"
    -- source: `abs(slope) > np.std(y)`; squared on both sides, both ≥ 0
    trend_strength := if popVar recent < slope ^ 2 then "strong" else "moderate"
    growth_rate_7d := pfMean (takeLast 7 (pctChange 7 vals))
    growth_rate_30d := pfMean (takeLast 30 (pctChange 1 vals))
    seasonality_score :=
      if 0 < mean weeklyAvg then
        (sampleVar weeklyAvg).map fun v => Real.sqrt (v : ℝ) / (mean weeklyAvg : ℝ)
      else some 0
    ma_7 := (rollingMeans 7 vals).getLastD 0
    ma_30 := (rollingMeans 30 vals).getLastD 0
    data_points := (validRows rows).length }

/-- `AdvancedAnalytics.detect_trends`.  The input is the pair of selected
columns with dates already coerced (`errors='coerce'`); `window_days`
defaults to 30 in the source. -/
noncomputable def detect_trends (rows : List (Option ℤ × Option ℚ))
    (window_days : ℕ) : Except String TrendPayload :=
  if (validRows rows).length < 2 then
    .error "Insufficient data for trend analysis"
  else
    if 1 < (takeLast window_days (sortedValues rows)).length then
      .ok (trendPayload rows window_days)
    else
      .error "Insufficient recent data for trend analysis"

/-! ## Anomaly detection (`detect_anomalies`) -/

/-- The non-null entries of column `j` of a cell matrix. -/
def colCells (cells : List (List (Option ℚ))) (j : ℕ) : List ℚ :=
  cells.filterMap fun r => r.getD j none

/-- `fillna(numeric_data.mean())`: missing entries are replaced by their
column mean; a column with no non-null entry has mean `NaN`, so its cells
stay `none`. -/
def fillnaCells (ncols : ℕ) (cells : List (List (Option ℚ))) :
    List (List (Option ℚ)) :=
  cells.map fun r =>
    (List.range ncols).map fun j =>
      match r.getD j none with
      | some v => some v
      | none =>
          if (colCells cells j).isEmpty then none
          else some (mean (colCells cells j))

/-- Does any `NaN` survive the imputation (an all-`NaN` column)?  If so,
the scikit-learn estimator raises and the blanket `except` turns that
into an error payload. -/
def anyNaN (cells : List (List (Option ℚ))) : Bool :=
  cells.any fun r => r.any fun c => c.isNone

/-- `StandardScaler` scale for one column: the standard deviation, or 1
for a zero-variance column (scikit-learn's zero-variance handling). -/
noncomputable def scaleFactor (v : ℚ) : ℝ :=
  if v = 0 then 1 else Real.sqrt (v : ℝ)

/-- Column `j` of a clean numeric matrix. -/
def colOf (m : List (List ℚ)) (j : ℕ) : List ℚ := m.map fun r => r.getD j 0

/-- `StandardScaler.fit_transform`: per column, subtract the mean and
divide by the scale. -/
noncomputable def standardize (ncols : ℕ) (m : List (List ℚ)) :
    List (List ℝ) :=
  m.map fun r =>
    (List.range ncols).map fun j =>
      ((r.getD j 0 - mean (colOf m j) : ℚ) : ℝ) / scaleFactor (popVar (colOf m j))

/-- The `IsolationForest` fit: with the fixed integer `random_state=42`
in the source, `fit_predict` and `decision_function` are one pure
function of the contamination parameter and the scaled matrix, returning
one label (±1, −1 = anomalous) and one score per input row. -/
structure IsoLib where
  isoFit : ℚ → List (List ℝ) → List ℤ × List ℚ

/-- `np.percentile(xs, 100q)` with the default linear interpolation;
callers guard against an empty input (NumPy would raise there). -/
def percentile (q : ℚ) (xs : List ℚ) : ℚ :=
  let s := List.insertionSort (· ≤ ·) xs
  let h : ℚ := q * ((xs.length : ℚ) - 1)
  let lo := Int.toNat ⌊h⌋
  let frac := h - (lo : ℚ)
  s.getD lo 0 + frac * (s.getD (lo + 1) (s.getD lo 0) - s.getD lo 0)

/-- `DataFrame.nlargest(n, col)` with the default `keep='first'`: stable
descending sort on the score, then the first `n` rows. -/
def nlargest (n : ℕ) (xs : List (α × ℚ)) : List (α × ℚ) :=
  (List.insertionSort (fun a b => b.2 ≤ a.2) xs).take n

/-- `np.min` modelled totally; the 0 default is never exercised because
every call site below has a nonempty score list. -/
def qMin : List ℚ → ℚ
  | [] => 0
  | h :: t => t.foldl min h

def qMax : List ℚ → ℚ
  | [] => 0
  | h :: t => t.foldl max h

/-- Success payload of `detect_anomalies`; `α` is the type of the
original frame rows that reappear in `top_anomalies` (paired with the
added `anomaly_score` column). -/
structure AnomalyPayload (α : Type) where
  total_records : ℕ
  anomaly_count : ℕ
  anomaly_percentage : ℚ
  anomaly_threshold : ℚ
  top_anomalies : List (α × ℚ)
  score_mean : ℚ
  score_std : ℝ
  score_min : ℚ
  score_max : ℚ

/-- The rows flagged `-1` by the model, paired with their scores
(`anomalies['anomaly_score'] = anomaly_scores[anomaly_labels == -1]`). -/
def flaggedRows (rows : List (α × List (Option ℚ))) (labels : List ℤ)
    (scores : List ℚ) : List (α × ℚ) :=
  ((rows.zip labels).zip scores).filterMap fun p =>
    if p.1.2 = -1 then some (p.1.1.1, p.2) else none

/-- The `fillna(mean)`-imputed numeric matrix of the anomaly input. -/
def anomFilled (rows : List (α × List (Option ℚ))) (ncols : ℕ) :
    List (List (Option ℚ)) :=
  fillnaCells ncols (rows.map (·.2))

/-- The scaled matrix handed to the isolation forest. -/
noncomputable def anomScaled (rows : List (α × List (Option ℚ)))
    (ncols : ℕ) : List (List ℝ) :=
  standardize ncols ((anomFilled rows ncols).map fun r => r.filterMap id)

/-- `fit_predict` labels of the current call. -/
noncomputable def anomLabels (lib : IsoLib)
    (rows : List (α × List (Option ℚ))) (ncols : ℕ) (contamination : ℚ) :
    List ℤ :=
  (lib.isoFit contamination (anomScaled rows ncols)).1

/-- `decision_function` scores of the current call. -/
noncomputable def anomScores (lib : IsoLib)
    (rows : List (α × List (Option ℚ))) (ncols : ℕ) (contamination : ℚ) :
    List ℚ :=
  (lib.isoFit contamination (anomScaled rows ncols)).2

/-- The payload built in the successful branch of `detect_anomalies`. -/
noncomputable def anomPayload (lib : IsoLib)
    (rows : List (α × List (Option ℚ))) (ncols : ℕ) (contamination : ℚ) :
    AnomalyPayload α :=
  let scores := anomScores lib rows ncols contamination
  let anomalies :=
    flaggedRows rows (anomLabels lib rows ncols contamination) scores
  { total_records := rows.length
    anomaly_count := anomalies.length
    anomaly_percentage := (anomalies.length : ℚ) / (rows.length : ℚ) * 100
    anomaly_threshold := percentile (9 / 10) scores
    top_anomalies := nlargest 5 anomalies
    score_mean := mean scores
    score_std := Real.sqrt ((popVar scores : ℚ) : ℝ)
    score_min := qMin scores
    score_max := qMax scores }

/-- `AdvancedAnalytics.detect_anomalies`.  `rows` pairs each original
frame row with the cells of the numeric columns that
`df[columns].select_dtypes` selected; `ncols` is the number of those
columns (`numeric_data.empty` holds when there are no rows or no numeric
columns). -/
noncomputable def detect_anomalies (lib : IsoLib)
    (rows : List (α × List (Option ℚ))) (ncols : ℕ) (contamination : ℚ) :
    Except String (AnomalyPayload α) :=
  if rows.isEmpty ∨ ncols = 0 then
    .error "No numeric columns found for anomaly detection"
  else
    if anyNaN (anomFilled rows ncols) then
      -- an all-NaN column survives `fillna`; the estimator raises and the
      -- blanket `except` reports the exception text
      .error "Anomaly detection failed: Input contains NaN"
    else
      .ok (anomPayload lib rows ncols contamination)

/-! ## Customer segmentation (`segment_customers`) -/

/-- `KMeans.fit` with the fixed `random_state=42`: a pure function of
`n_clusters` and the scaled matrix, returning one label per row together
with `cluster_centers_` and `inertia_`. -/
structure KMeansLib where
  kmeansFit : ℕ → List (List ℝ) → List ℕ × List (List ℚ) × ℚ

/-- `Series.median` (linear interpolation between the two middle values
for an even count). -/
def median (xs : List ℚ) : ℚ :=
  let s := List.insertionSort (· ≤ ·) xs
  let n := xs.length
  if n % 2 = 1 then s.getD (n / 2) 0
  else (s.getD (n / 2 - 1) 0 + s.getD (n / 2) 0) / 2

/-- Per-feature statistics inside one cluster; `std` is pandas'
`ddof = 1` standard deviation, `none` modelling the `NaN` of a
single-row cluster. -/
structure FeatStats where
  mean : ℚ
  median : ℚ
  std : Option ℝ

/-- One `cluster_analysis["cluster_i"]` entry. -/
structure ClusterInfo where
  size : ℕ
  percentage : ℚ
  characteristics : List (String × FeatStats)

/-- ASCII lowercase of one character (the column names fed to the
keyword heuristics are ASCII). -/
def lowerChar (c : Char) : Char :=
  if 65 ≤ c.toNat ∧ c.toNat ≤ 90 then Char.ofNat (c.toNat + 32) else c

/-- Case-insensitive substring test, `kw in name.lower()` (the keyword
lists below are lowercase). -/
def containsKw (name kw : String) : Bool :=
  (name.data.map lowerChar).tails.any fun t => kw.data.isPrefixOf t

def spendingKeywords : List String := ["spent", "value", "amount", "revenue", "total"]

def orderKeywords : List String := ["order", "count", "frequency"]

/-- `AdvancedAnalytics._determine_cluster_type`. -/
def determine_cluster_type (info : ClusterInfo) (features : List String) :
    String :=
  let spending := features.filter fun f => spendingKeywords.any (containsKw f)
  let spendSum : ℚ :=
    (spending.filterMap fun f => (info.characteristics.lookup f).map (·.mean)).sum
  if spending ≠ [] ∧ 0 < spendSum then
    if 10000 < spendSum then "High-Value Premium"
    else if 5000 < spendSum then "Mid-Value Standard"
    else "Low-Value Basic"
  else
    let orders := features.filter fun f => orderKeywords.any (containsKw f)
    let orderSum : ℚ :=
      (orders.filterMap fun f => (info.characteristics.lookup f).map (·.mean)).sum
    if orders ≠ [] ∧ 0 < orderSum then
      if 20 < orderSum then "High-Frequency Loyal"
      else if 10 < orderSum then "Medium-Frequency Regular"
      else "Low-Frequency Occasional"
    else
      -- Python's `len(cluster_info)` is the number of keys of the
      -- three-key dict (size, percentage, characteristics), i.e. the
      -- constant 3 — not the row count the adjacent source comment
      -- ("More than 40% of total") speaks of.
      if (3 : ℚ) * (4 / 10) < (info.size : ℚ) then "Mainstream Majority"
      else if (info.size : ℚ) < (3 : ℚ) * (1 / 10) then "Niche Minority"
      else "Standard Segment"

/-- `f"{x:.2f}"` on an exact rational (round-half-up stands in for the
float's round-half-even; purely presentational). -/
def fmt2 (x : ℚ) : String :=
  let c : ℤ := round (x * 100)
  let a := c.natAbs
  let fp := a % 100
  (if c < 0 then "-" else "") ++ toString (a / 100) ++ "." ++
    (if fp < 10 then "0" ++ toString fp else toString fp)

/-- `round(x, 1)` (same rounding caveat as `fmt2`). -/
def round1 (x : ℚ) : ℚ := (round (x * 10) : ℤ) / 10

/-- One `cluster_details` entry. -/
structure ClusterDetail where
  size : ℕ
  percentage : ℚ
  characteristics : String
  type : String

/-- Success payload of `segment_customers`.  `cluster_analysis` is the
dict keyed `cluster_0 .. cluster_(k-1)`, in key order. -/
structure SegPayload where
  n_clusters : ℕ
  cluster_analysis : List ClusterInfo
  cluster_details : List ClusterDetail
  cluster_centers : List (List ℚ)
  total_customers : ℕ
  features_used : List String
  segmentation_quality : ℚ
  business_insights : List String

/-- The cells (all `features` columns, `to_numeric`-coerced) of the rows
that clustering put in cluster `i`. -/
def clusterCells (cells : List (List (Option ℚ))) (labels : List ℕ)
    (i : ℕ) : List (List (Option ℚ)) :=
  ((cells.zip labels).filter fun rl => rl.2 = i).map (·.1)

/-- `cluster_analysis["cluster_i"]`: size, percentage of all rows, and
per-feature mean/median/std over the non-null coerced values (features
with no valid value in the cluster are omitted). -/
noncomputable def clusterInfo (cells : List (List (Option ℚ))) (features : List String)
    (labels : List ℕ) (total : ℕ) (i : ℕ) : ClusterInfo :=
  let inCluster := clusterCells cells labels i
  { size := inCluster.length
    percentage := (inCluster.length : ℚ) / (total : ℚ) * 100
    characteristics := (features.enum).filterMap fun p =>
      let fvals := inCluster.filterMap fun r => r.getD p.1 none
      if fvals.isEmpty then none
      else some (p.2,
        { mean := mean fvals
          median := median fvals
          std := (sampleVar fvals).map fun v => Real.sqrt (v : ℝ) }) }

/-- The human-readable characteristics line of one cluster: the
`"{feature}: ₹{mean:.2f} avg"` strings of the features with positive
cluster mean, first three, comma-joined. -/
def characteristicsLine (info : ClusterInfo) (features : List String) :
    String :=
  String.intercalate ", " ((features.filterMap fun f =>
    (info.characteristics.lookup f).bind fun st =>
      if 0 < st.mean then some (f ++ ": ₹" ++ fmt2 st.mean ++ " avg")
      else none).take 3)

/-- Positions of the `features` columns with numeric dtype
(`df[features].select_dtypes(include=[np.number])`). -/
def segSelIdx (features : List String) (mask : List Bool) : List ℕ :=
  (List.range features.length).filter fun j => mask.getD j false

/-- The numeric feature sub-matrix after mean imputation. -/
def segFilled (cells : List (List (Option ℚ))) (features : List String)
    (mask : List Bool) : List (List (Option ℚ)) :=
  fillnaCells (segSelIdx features mask).length
    (cells.map fun r => (segSelIdx features mask).map fun j => r.getD j none)

/-- The scaled feature matrix handed to `KMeans`. -/
noncomputable def segScaled (cells : List (List (Option ℚ)))
    (features : List String) (mask : List Bool) : List (List ℝ) :=
  standardize (segSelIdx features mask).length
    ((segFilled cells features mask).map fun r => r.filterMap id)

/-- The cluster labels of the current call. -/
noncomputable def segLabels (klib : KMeansLib)
    (cells : List (List (Option ℚ))) (features : List String)
    (mask : List Bool) (n_clusters : ℕ) : List ℕ :=
  (klib.kmeansFit n_clusters (segScaled cells features mask)).1

/-- The `cluster_analysis` entries of the current call. -/
noncomputable def segInfos (klib : KMeansLib)
    (cells : List (List (Option ℚ))) (features : List String)
    (mask : List Bool) (n_clusters : ℕ) : List ClusterInfo :=
  (List.range n_clusters).map
    (clusterInfo cells features (segLabels klib cells features mask n_clusters)
      cells.length)

/-- The `cluster_details` entries of the current call. -/
noncomputable def segDetails (klib : KMeansLib)
    (cells : List (List (Option ℚ))) (features : List String)
    (mask : List Bool) (n_clusters : ℕ) : List ClusterDetail :=
  (segInfos klib cells features mask n_clusters).map fun info =>
    { size := info.size
      percentage := round1 info.percentage
      characteristics := characteristicsLine info features
      type := determine_cluster_type info features }

/-- The payload built in the successful branch of `segment_customers`. -/
noncomputable def segPayload (klib : KMeansLib)
    (cells : List (List (Option ℚ))) (features : List String)
    (mask : List Bool) (n_clusters : ℕ) : SegPayload :=
  { n_clusters := n_clusters
    cluster_analysis := segInfos klib cells features mask n_clusters
    cluster_details := segDetails klib cells features mask n_clusters
    cluster_centers := (klib.kmeansFit n_clusters (segScaled cells features mask)).2.1
    total_customers := cells.length
    features_used := features
    segmentation_quality := (klib.kmeansFit n_clusters (segScaled cells features mask)).2.2
    business_insights := [] }

/-- `AdvancedAnalytics.segment_customers`.  `cells` holds the `features`
columns of every row (coerced values, `none` = NaN / non-numeric);
`mask` records which of those columns have numeric dtype
(`select_dtypes(include=[np.number])`). -/
noncomputable def segment_customers (klib : KMeansLib)
    (cells : List (List (Option ℚ))) (features : List String)
    (mask : List Bool) (n_clusters : ℕ) : Except String SegPayload :=
  if cells.isEmpty ∨ (segSelIdx features mask).isEmpty then
    .error "No numeric features found for segmentation"
  else
    if anyNaN (segFilled cells features mask) then
      .error "Customer segmentation failed: Input contains NaN"
    else
      if 1 < (segDetails klib cells features mask n_clusters).length then
        -- `any('high' in ... or 'premium' in ...)` in the
        -- business-insights block applies `any` to a bool: a TypeError,
        -- swallowed by the blanket `except` — so every run with more
        -- than one cluster entry degrades to this error payload.
        .error "Customer segmentation failed: \x27bool\x27 object is not iterable"
      else
        .ok (segPayload klib cells features mask n_clusters)

/-! ## Correlation analysis (`calculate_correlations`) -/

/-- The rows in which both column `i` and column `j` are non-null:
pandas' pairwise-complete observations for one correlation entry. -/
def pairList (rows : List (List (Option ℚ))) (i j : ℕ) : List (ℚ × ℚ) :=
  rows.filterMap fun r =>
    match r.getD i none, r.getD j none with
    | some a, some b => some (a, b)
    | _, _ => none

/-- Centered sum of squares `Σ (x - x̄)²`. -/
def sDev2 (xs : List ℚ) : ℚ := (xs.map fun x => (x - mean xs) ^ 2).sum

/-- Centered cross sum `Σ (x - x̄)(y - ȳ)`. -/
def sCross (ps : List (ℚ × ℚ)) : ℚ :=
  (ps.map fun p =>
    (p.1 - mean (ps.map Prod.fst)) * (p.2 - mean (ps.map Prod.snd))).sum

/-- One entry of `numeric_data.corr()`: the Pearson correlation of
columns `i` and `j` over their pairwise-complete rows; `none` models the
`NaN` that pandas produces when either column is constant (or has fewer
than two complete observations). -/
noncomputable def corrEntry (rows : List (List (Option ℚ))) (i j : ℕ) :
    Option ℝ :=
  if sDev2 ((pairList rows i j).map Prod.fst) = 0
      ∨ sDev2 ((pairList rows i j).map Prod.snd) = 0 then none
  else
    some ((sCross (pairList rows i j) : ℝ) /
      (Real.sqrt ((sDev2 ((pairList rows i j).map Prod.fst) : ℚ) : ℝ) *
        Real.sqrt ((sDev2 ((pairList rows i j).map Prod.snd) : ℚ) : ℝ)))

/-- The strictly-upper-triangle index pairs, in the source's loop order
(`i` outer, `j in range(i+1, n)`). -/
def upperPairs (n : ℕ) : List (ℕ × ℕ) :=
  (List.range n).flatMap fun i =>
    ((List.range n).filter fun j => decide (i < j)).map fun j => (i, j)

def isMonetaryName (s : String) : Bool :=
  containsKw s "total" || containsKw s "amount" || containsKw s "spent"

def isStockName (s : String) : Bool :=
  containsKw s "stock" || containsKw s "quantity"

def isCostName (s : String) : Bool :=
  containsKw s "cost" || containsKw s "price"

def isOrderName (s : String) : Bool :=
  containsKw s "order" || containsKw s "count"

def isDateName (s : String) : Bool :=
  containsKw s "date" || containsKw s "time"

/-- The business-friendly display renaming of a column (first matching
keyword family wins, in the source's `if`/`elif` order). -/
def displayName (col : String) : String :=
  if isMonetaryName col then "💰 " ++ col
  else if isDateName col then "📅 " ++ col
  else if isStockName col then "📦 " ++ col
  else if isCostName col then "💵 " ++ col
  else if isOrderName col then "🛒 " ++ col
  else "📊 " ++ col

open scoped Classical in
/-- `AdvancedAnalytics._interpret_correlation`: the canned business
sentence for a flagged pair, following the source's fall-through
structure (a keyword block without a matching branch falls through to
the next block). -/
noncomputable def interpret_correlation (v1 v2 : String) (r : ℝ) : String :=
  if isMonetaryName v1 ∧ isMonetaryName v2 then
    if 0.7 < r then "High spending customers tend to have high total amounts"
    else "Spending patterns are independent"
  else if isStockName v1 ∧ isCostName v2 ∧ 0.7 < r then
    "Higher stock quantities correlate with higher costs"
  else if isStockName v1 ∧ isCostName v2 ∧ r < -0.7 then
    "Higher stock quantities correlate with lower unit costs (bulk pricing)"
  else if isOrderName v1 ∧ isMonetaryName v2 then
    if 0.7 < r then "More orders correlate with higher total amounts"
    else "Order frequency and amounts are independent"
  else if isDateName v1 ∧ isMonetaryName v2 ∧ 0.7 < r then
    "Time-based trends in spending/amounts detected"
  else if isDateName v1 ∧ isMonetaryName v2 ∧ r < -0.7 then
    "Inverse time-based trends detected"
  else if 0.9 < r then
    "Very strong positive relationship - these variables move together"
  else if 0.7 < r then
    "Strong positive relationship - as one increases, the other tends to increase"
  else if r < -0.9 then
    "Very strong negative relationship - these variables move in opposite directions"
  else if r < -0.7 then
    "Strong negative relationship - as one increases, the other tends to decrease"
  else "Moderate relationship - some connection exists"

/-- One enhanced `strong_correlations` entry; `interpretationText` is
the `interpretation` key of the source dict. -/
structure CorrPair where
  i : ℕ
  j : ℕ
  variable1 : String
  variable2 : String
  correlation : ℝ
  strength : String
  variable1_display : String
  variable2_display : String
  interpretationText : String

open scoped Classical in
/-- The enhanced strong-correlation list: every unordered pair whose
matrix entry exceeds 0.7 in absolute value (a `NaN` entry compares
false, so it is never flagged). -/
noncomputable def strongCorrelations (rows : List (List (Option ℚ)))
    (colNames : List String) : List CorrPair :=
  (upperPairs colNames.length).filterMap fun p =>
    match corrEntry rows p.1 p.2 with
    | none => none
    | some r =>
        if 0.7 < |r| then
          let v1 := colNames.getD p.1 ""
          let v2 := colNames.getD p.2 ""
          some { i := p.1, j := p.2, variable1 := v1, variable2 := v2
                 correlation := r
                 strength := if 0 < r then "strong positive" else "strong negative"
                 variable1_display := displayName v1
                 variable2_display := displayName v2
                 interpretationText := interpret_correlation v1 v2 r }
        else none

/-- `np.mean` of the strict upper triangle of the matrix (no `NaN`
skipping: any `NaN` — and the empty single-column triangle — gives
`NaN`). -/
noncomputable def meanUpperTriangle (rows : List (List (Option ℚ)))
    (n : ℕ) : Option ℝ :=
  let l := (upperPairs n).map fun p => corrEntry rows p.1 p.2
  if l.isEmpty ∨ l.any (·.isNone) then none
  else some ((l.filterMap id).sum / (l.length : ℝ))

/-- Success payload of `calculate_correlations`; the matrix dict is a
function of column positions. -/
structure CorrPayload where
  matrixEntry : ℕ → ℕ → Option ℝ
  strong_correlations : List CorrPair
  variables_analyzed : ℕ
  total_variables : ℕ
  strong_correlations_count : ℕ
  mean_correlation : Option ℝ

/-- The payload built in the successful branch of
`calculate_correlations`. -/
noncomputable def corrPayload (rows : List (List (Option ℚ)))
    (colNames : List String) : CorrPayload :=
  { matrixEntry := fun i j => corrEntry rows i j
    strong_correlations := strongCorrelations rows colNames
    variables_analyzed := colNames.length
    total_variables := colNames.length
    strong_correlations_count := (strongCorrelations rows colNames).length
    mean_correlation := meanUpperTriangle rows colNames.length }

/-- `AdvancedAnalytics.calculate_correlations`.  `rows` holds the cells
of the numeric columns (after the `select_dtypes` step), `colNames`
their names in frame order. -/
noncomputable def calculate_correlations (rows : List (List (Option ℚ)))
    (colNames : List String) : Except String CorrPayload :=
  if rows.isEmpty ∨ colNames.isEmpty then
    .error "No numeric columns found for correlation analysis"
  else
    .ok (corrPayload rows colNames)

/-! ## Forecasting (`generate_forecast`) -/

/-- The residuals of the degree-one fit over a window (actual minus
fitted value at each index). -/
def fitResiduals (ys : List ℚ) : List ℚ :=
  ys.enum.map fun p => p.2 - ((polyfit1 ys).1 * (p.1 : ℚ) + (polyfit1 ys).2)

/-- `np.std(recent_values - (slope * x + intercept))`: the population
standard deviation of the fit residuals. -/
noncomputable def residualStd (ys : List ℚ) : ℝ :=
  Real.sqrt ((popVar (fitResiduals ys) : ℚ) : ℝ)

structure ForecastEntry where
  period : ℕ
  forecast : ℝ
  lower_bound : ℝ
  upper_bound : ℝ

structure ForecastPayload where
  forecast_periods : ℕ
  trend_slope : ℚ
  trend_direction : String
  confidence_interval : ℝ
  forecast_data : List ForecastEntry
  last_actual_value : ℚ

/-- The payload built in the successful branch of `generate_forecast`. -/
noncomputable def forecastPayload (rows : List (Option ℤ × Option ℚ))
    (periods : ℕ) : ForecastPayload :=
  let recent := takeLast 14 (sortedValues rows)
  let slope := (polyfit1 recent).1
  let intercept := (polyfit1 recent).2
  let ci : ℝ := (1.96 : ℝ) * residualStd recent
  { forecast_periods := periods
    trend_slope := slope
    trend_direction := if 0 < slope then "increasing" else "decreasing"
    confidence_interval := ci
    forecast_data := (List.range periods).map fun idx =>
      let v : ℚ := slope * ((recent.length + idx : ℕ) : ℚ) + intercept
      { period := idx + 1
        forecast := (v : ℝ)
        lower_bound := (v : ℝ) - ci
        upper_bound := (v : ℝ) + ci }
    last_actual_value := recent.getLastD 0 }

/-- `AdvancedAnalytics.generate_forecast` (same input model as
`detect_trends`; `periods` defaults to 30 in the source). -/
noncomputable def generate_forecast (rows : List (Option ℤ × Option ℚ))
    (periods : ℕ) : Except String ForecastPayload :=
  if (validRows rows).length < 10 then
    .error "Insufficient data for forecasting (minimum 10 data points required)"
  else
    if 2 ≤ (takeLast 14 (sortedValues rows)).length then
      .ok (forecastPayload rows periods)
    else .error "Insufficient recent data for forecasting"

/-! ## Frame (heap) model

Python frames are heap objects.  To state that an analysis leaves its
input table untouched, the heap is a list of frame objects, an operation
receives the *index* of its input frame, and every frame the operation
builds (`df.copy()`, selections, the `anomalies`/`df_with_clusters`
copies) is appended as a fresh object — exactly the allocation behaviour
of the source, which never assigns into the caller's frame. -/

/-- The frame shapes the five analyses read or allocate. -/
inductive PdFrame (α : Type) where
  | timeTable (rows : List (Option ℤ × Option ℚ))
  | anomTable (rows : List (α × List (Option ℚ)))
  | anomOut (rows : List (α × ℚ))
  | segTable (cells : List (List (Option ℚ)))
  | segOut (cells : List (List (Option ℚ))) (labels : List ℕ)
  | corrTable (rows : List (List (Option ℚ)))
  | sortedCopy (rows : List (ℤ × ℚ))

/-- `detect_trends` on the heap: reads the frame at `idx`, allocates its
`df_copy` (modelled in its final sorted form), never writes elsewhere. -/
noncomputable def detect_trends_heap (h : List (PdFrame α)) (idx : ℕ)
    (window_days : ℕ) : List (PdFrame α) × Except String TrendPayload :=
  match h.getD idx (.timeTable []) with
  | .timeTable rows =>
      (h ++ [.sortedCopy (sortedRows rows)], detect_trends rows window_days)
  | _ => (h, .error "Trend analysis failed: unexpected frame")

/-- `detect_anomalies` on the heap: allocates the flagged-rows copy that
receives the `anomaly_score` column. -/
noncomputable def detect_anomalies_heap (lib : IsoLib)
    (h : List (PdFrame α)) (idx : ℕ) (ncols : ℕ) (contamination : ℚ) :
    List (PdFrame α) × Except String (AnomalyPayload α) :=
  match h.getD idx (.timeTable []) with
  | .anomTable rows =>
      (h ++ [.anomOut (flaggedRows rows (anomLabels lib rows ncols contamination)
          (anomScores lib rows ncols contamination))],
       detect_anomalies lib rows ncols contamination)
  | _ => (h, .error "Anomaly detection failed: unexpected frame")

/-- `segment_customers` on the heap: allocates `df_with_clusters`
(`df.copy()` plus the added `cluster` column). -/
noncomputable def segment_customers_heap (klib : KMeansLib)
    (h : List (PdFrame α)) (idx : ℕ) (features : List String)
    (mask : List Bool) (n_clusters : ℕ) :
    List (PdFrame α) × Except String SegPayload :=
  match h.getD idx (.timeTable []) with
  | .segTable cells =>
      (h ++ [.segOut cells (segLabels klib cells features mask n_clusters)],
       segment_customers klib cells features mask n_clusters)
  | _ => (h, .error "Customer segmentation failed: unexpected frame")

/-- `calculate_correlations` on the heap: only derives new objects
(`numeric_data`, the correlation matrix); the input frame is read
only. -/
noncomputable def calculate_correlations_heap (h : List (PdFrame α))
    (idx : ℕ) (colNames : List String) :
    List (PdFrame α) × Except String CorrPayload :=
  match h.getD idx (.timeTable []) with
  | .corrTable rows => (h, calculate_correlations rows colNames)
  | _ => (h, .error "Correlation analysis failed: unexpected frame")

/-- `generate_forecast` on the heap: allocates its `df_copy`. -/
noncomputable def generate_forecast_heap (h : List (PdFrame α)) (idx : ℕ)
    (periods : ℕ) : List (PdFrame α) × Except String ForecastPayload :=
  match h.getD idx (.timeTable []) with
  | .timeTable rows =>
      (h ++ [.sortedCopy (sortedRows rows)], generate_forecast rows periods)
  | _ => (h, .error "Forecasting failed: unexpected frame")

/-! ## The shared-model state machine

The source keeps one `AdvancedAnalytics` singleton whose scaler, outlier
detector and clusterer are re-fitted inside every call; the fitted state
of a seeded scikit-learn estimator is determined by its hyper-parameters
and training matrix, which is what `MLModels` stores. -/

/-- The fitted state of the three shared estimator objects. -/
structure MLModels where
  scalerMeans : List ℚ
  scalerVars : List ℚ
  forestTrained : Option (ℚ × List (List ℝ))
  kmeansTrained : Option (ℕ × List (List ℝ))

def initialModels : MLModels := ⟨[], [], none, none⟩

/-- One public analysis call with its table snapshot and parameters. -/
inductive AnalysisOp (α : Type) where
  | trends (rows : List (Option ℤ × Option ℚ)) (window_days : ℕ)
  | anomalies (rows : List (α × List (Option ℚ))) (ncols : ℕ) (contamination : ℚ)
  | segmentation (cells : List (List (Option ℚ))) (features : List String)
      (mask : List Bool) (n_clusters : ℕ)
  | correlations (rows : List (List (Option ℚ))) (colNames : List String)
  | forecast (rows : List (Option ℤ × Option ℚ)) (periods : ℕ)

/-- The structured result of one call. -/
inductive AnalysisOutput (α : Type) where
  | trends : Except String TrendPayload → AnalysisOutput α
  | anomalies : Except String (AnomalyPayload α) → AnalysisOutput α
  | segmentation : Except String SegPayload → AnalysisOutput α
  | correlations : Except String CorrPayload → AnalysisOutput α
  | forecast : Except String ForecastPayload → AnalysisOutput α

/-- The fitted state after an anomaly call: the scaler and the forest
are re-fitted from the call's own input whenever the source reaches the
`fit` calls (the early-error paths leave the old fitted state in
place). -/
noncomputable def anomaliesState (st : MLModels)
    (rows : List (α × List (Option ℚ))) (ncols : ℕ) (c : ℚ) : MLModels :=
  if rows.isEmpty ∨ ncols = 0 then st
  else if anyNaN (anomFilled rows ncols) then st
  else
    let m := (anomFilled rows ncols).map fun r => r.filterMap id
    { st with
        scalerMeans := (List.range ncols).map fun j => mean (colOf m j)
        scalerVars := (List.range ncols).map fun j => popVar (colOf m j)
        forestTrained := some (c, standardize ncols m) }

/-- The fitted state after a segmentation call (scaler and clusterer
re-fitted from the call's own input). -/
noncomputable def segmentationState (st : MLModels)
    (cells : List (List (Option ℚ))) (features : List String)
    (mask : List Bool) (k : ℕ) : MLModels :=
  if cells.isEmpty ∨ (segSelIdx features mask).isEmpty then st
  else if anyNaN (segFilled cells features mask) then st
  else
    let m := (segFilled cells features mask).map fun r => r.filterMap id
    { st with
        scalerMeans := (List.range (segSelIdx features mask).length).map
          fun j => mean (colOf m j)
        scalerVars := (List.range (segSelIdx features mask).length).map
          fun j => popVar (colOf m j)
        kmeansTrained := some (k, standardize (segSelIdx features mask).length m) }

/-- One call against the singleton: the returned payload is computed
from the call's own input, and the fitted state is overwritten (only)
where the source reaches a `fit`. -/
noncomputable def runOp (ilib : IsoLib) (klib : KMeansLib) (st : MLModels) :
    AnalysisOp α → MLModels × AnalysisOutput α
  | .trends rows wd => (st, .trends (detect_trends rows wd))
  | .anomalies rows ncols c =>
      (anomaliesState st rows ncols c,
       .anomalies (detect_anomalies ilib rows ncols c))
  | .segmentation cells features mask k =>
      (segmentationState st cells features mask k,
       .segmentation (segment_customers klib cells features mask k))
  | .correlations rows names => (st, .correlations (calculate_correlations rows names))
  | .forecast rows p => (st, .forecast (generate_forecast rows p))

/-- The fitted state left behind by a sequence of calls. -/
noncomputable def runSeqState (ilib : IsoLib) (klib : KMeansLib) :
    MLModels → List (AnalysisOp α) → MLModels
  | st, [] => st
  | st, op :: rest =>
      runSeqState ilib klib (runOp ilib klib st op).1 rest

/-! ## Claim-specific definitions -/

/-- A constant isolation-forest fit, used to instantiate the library
parameter on concrete inputs. -/
def constIsoLib (out : List ℤ × List ℚ) : IsoLib := ⟨fun _ _ => out⟩

/-- A constant k-means fit, used to instantiate the library parameter on
concrete inputs. -/
def constKMeansLib (out : List ℕ × List (List ℚ) × ℚ) : KMeansLib :=
  ⟨fun _ _ => out⟩

/-- The `top_anomalies` list of an anomaly result (empty on error). -/
def topOf : Except String (AnomalyPayload α) → List (α × ℚ)
  | .ok p => p.top_anomalies
  | .error _ => []

/-- The flagged-row list of an anomaly call. -/
noncomputable def flaggedOf (lib : IsoLib)
    (rows : List (α × List (Option ℚ))) (ncols : ℕ) (c : ℚ) :
    List (α × ℚ) :=
  flaggedRows rows (anomLabels lib rows ncols c) (anomScores lib rows ncols c)

/-- C1's reading of the report: every selected top anomaly is at least
as anomalous as every flagged row left out — under the isolation-forest
sign convention (lower `decision_function` score = more anomalous),
`x.2 ≤ y.2` for selected `x` and excluded `y`.  Vacuously true on an
error result. -/
@[reducible] def topAreMostAnomalous (lib : IsoLib)
    (rows : List (α × List (Option ℚ))) (ncols : ℕ) (c : ℚ) : Prop :=
  ∀ x ∈ topOf (detect_anomalies lib rows ncols c),
    ∀ y ∈ flaggedOf lib rows ncols c,
      y ∉ topOf (detect_anomalies lib rows ncols c) → x.2 ≤ y.2

/-- A seven-row frame (display key, one numeric cell) for exercising the
anomaly report. -/
def c1Rows : List (ℕ × List (Option ℚ)) :=
  [(0, [some 0]), (1, [some 1]), (2, [some 2]), (3, [some 3]),
   (4, [some 4]), (5, [some 5]), (6, [some 6])]

/-- A fit in which all seven rows are flagged anomalous with strictly
negative scores `-1, …, -7` (the isolation-forest convention: flagged
rows score below the decision boundary, lower = more anomalous). -/
def c1Lib : IsoLib :=
  constIsoLib ([-1, -1, -1, -1, -1, -1, -1], [-1, -2, -3, -4, -5, -6, -7])

/-- A ten-row forecast input with at least ten valid (date,value)
rows. -/
def c4Rows : List (Option ℤ × Option ℚ) :=
  [(some 0, some 1), (some 1, some 3), (some 2, some 2), (some 3, some 5),
   (some 4, some 4), (some 5, some 7), (some 6, some 6), (some 7, some 9),
   (some 8, some 8), (some 9, some 11)]

/-- The `type` labels of the cluster details (empty on error). -/
def segClusterTypes : Except String SegPayload → List String
  | .ok p => p.cluster_details.map (·.type)
  | .error _ => []

/-- The (rounded) percentages of the cluster details (empty on error). -/
def segClusterPercs : Except String SegPayload → List ℚ
  | .ok p => p.cluster_details.map (·.percentage)
  | .error _ => []

/-- One correlation-matrix entry of a correlation result (the impossible
error case is mapped to `some 0`, distinguishable from the `none` a
`NaN` entry produces). -/
noncomputable def corrMatOf : Except String CorrPayload → ℕ → ℕ → Option ℝ
  | .ok p, i, j => p.matrixEntry i j
  | .error _, _, _ => some 0

end Olynk

namespace Olynk

/-! ## Theorems -/

/-- C8: every public analysis on the empty table returns the structured
error payload of its input check (the embedding is a total function into
`Except`, so no call raises past its boundary). -/
theorem c8_empty_table_is_error :
    (∀ wd, detect_trends [] wd = .error "Insufficient data for trend analysis")
    ∧ (∀ (α : Type) (lib : IsoLib) (ncols : ℕ) (c : ℚ),
        detect_anomalies lib ([] : List (α × List (Option ℚ))) ncols c
          = .error "No numeric columns found for anomaly detection")
    ∧ (∀ (klib : KMeansLib) (features : List String) (mask : List Bool) (k : ℕ),
        segment_customers klib [] features mask k
          = .error "No numeric features found for segmentation")
    ∧ (∀ colNames, calculate_correlations [] colNames
          = .error "No numeric columns found for correlation analysis")
    ∧ (∀ periods, generate_forecast [] periods
          = .error "Insufficient data for forecasting (minimum 10 data points required)") := by
  refine ⟨fun wd => rfl, fun α lib ncols c => rfl, fun klib fs m k => rfl,
    fun cn => rfl, fun p => rfl⟩

/-- C9: every analysis leaves every pre-existing heap frame — in
particular its input table — unchanged: the new heap extends the old one
only by freshly allocated copies. -/
theorem c9_input_frames_untouched :
    (∀ (α : Type) (h : List (PdFrame α)) (idx wd : ℕ),
        ((detect_trends_heap h idx wd).1).take h.length = h)
    ∧ (∀ (α : Type) (lib : IsoLib) (h : List (PdFrame α)) (idx ncols : ℕ) (c : ℚ),
        ((detect_anomalies_heap lib h idx ncols c).1).take h.length = h)
    ∧ (∀ (α : Type) (klib : KMeansLib) (h : List (PdFrame α)) (idx : ℕ)
        (features : List String) (mask : List Bool) (k : ℕ),
        ((segment_customers_heap klib h idx features mask k).1).take h.length = h)
    ∧ (∀ (α : Type) (h : List (PdFrame α)) (idx : ℕ) (colNames : List String),
        ((calculate_correlations_heap h idx colNames).1).take h.length = h)
    ∧ (∀ (α : Type) (h : List (PdFrame α)) (idx periods : ℕ),
        ((generate_forecast_heap h idx periods).1).take h.length = h) := by
  refine ⟨?_, ?_, ?_, ?_, ?_⟩
  · intro α h idx wd
    unfold detect_trends_heap
    split <;> simp [List.take_left, List.take_length]
  · intro α lib h idx ncols c
    unfold detect_anomalies_heap
    split <;> simp [List.take_left, List.take_length]
  · intro α klib h idx features mask k
    unfold segment_customers_heap
    split <;> simp [List.take_left, List.take_length]
  · intro α h idx colNames
    unfold calculate_correlations_heap
    split <;> simp [List.take_left, List.take_length]
  · intro α h idx periods
    unfold generate_forecast_heap
    split <;> simp [List.take_left, List.take_length]

/-- The output of one call never reads the incoming fitted state. -/
theorem runOp_output_state_blind {α : Type} (ilib : IsoLib)
    (klib : KMeansLib) (st st' : MLModels) (op : AnalysisOp α) :
    (runOp ilib klib st op).2 = (runOp ilib klib st' op).2 := by
  cases op <;> rfl

/-- C5: an analysis re-run on the same table and parameters returns the
identical structured output no matter which other analyses (on any
tables) ran in between: the history only changes the fitted state, and
the output of a call never depends on it. -/
theorem c5_rerun_identical {α : Type} (ilib : IsoLib) (klib : KMeansLib)
    (st : MLModels) (history1 history2 : List (AnalysisOp α))
    (op : AnalysisOp α) :
    (runOp ilib klib (runSeqState ilib klib st history1) op).2
      = (runOp ilib klib (runSeqState ilib klib st history2) op).2 :=
  runOp_output_state_blind ilib klib _ _ op

theorem takeLast_length (n : ℕ) (xs : List α) :
    (takeLast n xs).length = min n xs.length := by
  simp only [takeLast, List.length_drop]; omega

theorem sortedValues_length (rows : List (Option ℤ × Option ℚ)) :
    (sortedValues rows).length = (validRows rows).length := by
  unfold sortedValues sortedRows
  rw [List.length_map]
  exact (List.perm_insertionSort _ _).length_eq

theorem rollingMeans_getLastD (w : ℕ) (xs : List ℚ) (hx : xs ≠ []) :
    (rollingMeans w xs).getLastD 0 = mean (takeLast w xs) := by
  have hn : 0 < xs.length := List.length_pos.2 hx
  have hlen : (rollingMeans w xs).length = xs.length := by simp [rollingMeans]
  rw [List.getLastD_eq_getLast?, List.getLast?_eq_getElem?, hlen]
  unfold rollingMeans
  rw [List.getElem?_map, List.getElem?_range (by omega)]
  have hx1 : xs.length - 1 + 1 = xs.length := by omega
  simp [hx1, List.take_length]

theorem detect_trends_eq_ok (rows : List (Option ℤ × Option ℚ)) (wd : ℕ)
    (h2 : 2 ≤ (validRows rows).length) (hw : 2 ≤ wd) :
    detect_trends rows wd = .ok (trendPayload rows wd) := by
  unfold detect_trends
  rw [if_neg (by omega), if_pos]
  rw [takeLast_length, sortedValues_length]
  omega

/-- C7: on at least two valid rows (and a trailing window of at least
two rows), the reported 7-day and 30-day moving averages are the means
of the trailing `min(7,n)` and `min(30,n)` values of the date-sorted
series. -/
theorem c7_moving_averages (rows : List (Option ℤ × Option ℚ)) (wd : ℕ)
    (h2 : 2 ≤ (validRows rows).length) (hw : 2 ≤ wd) :
    ∃ p, detect_trends rows wd = .ok p
      ∧ p.ma_7 = mean (takeLast 7 (sortedValues rows))
      ∧ p.ma_30 = mean (takeLast 30 (sortedValues rows))
      ∧ (takeLast 7 (sortedValues rows)).length = min 7 (validRows rows).length
      ∧ (takeLast 30 (sortedValues rows)).length = min 30 (validRows rows).length := by
  have hne : sortedValues rows ≠ [] := by
    intro h
    have := sortedValues_length rows
    rw [h] at this
    simp at this
    omega
  refine ⟨trendPayload rows wd, detect_trends_eq_ok rows wd h2 hw, ?_, ?_, ?_, ?_⟩
  · exact rollingMeans_getLastD 7 (sortedValues rows) hne
  · exact rollingMeans_getLastD 30 (sortedValues rows) hne
  · rw [takeLast_length, sortedValues_length]
  · rw [takeLast_length, sortedValues_length]

theorem c7_witness :
    2 ≤ (validRows [(some 1, some 10), (some 0, some 20), (some 3, some 30)]).length
    ∧ (2 : ℕ) ≤ 30
    ∧ ∃ p, detect_trends [(some 1, some 10), (some 0, some 20), (some 3, some 30)] 30 = .ok p
        ∧ p.ma_7 = mean (takeLast 7
            (sortedValues [(some 1, some 10), (some 0, some 20), (some 3, some 30)]))
        ∧ p.ma_30 = mean (takeLast 30
            (sortedValues [(some 1, some 10), (some 0, some 20), (some 3, some 30)]))
        ∧ (takeLast 7 (sortedValues [(some 1, some 10), (some 0, some 20), (some 3, some 30)])).length
            = min 7 (validRows [(some 1, some 10), (some 0, some 20), (some 3, some 30)]).length
        ∧ (takeLast 30 (sortedValues [(some 1, some 10), (some 0, some 20), (some 3, some 30)])).length
            = min 30 (validRows [(some 1, some 10), (some 0, some 20), (some 3, some 30)]).length :=
  ⟨by decide, by decide,
    c7_moving_averages [(some 1, some 10), (some 0, some 20), (some 3, some 30)] 30
      (by decide) (by decide)⟩

/-- C10: once the two-valid-rows check has passed (with a window of at
least two days), the "Insufficient recent data" branch is unreachable:
the trailing `window_days` slice of a series of length ≥ 2 has at least
two rows. -/
theorem c10_recent_error_unreachable (rows : List (Option ℤ × Option ℚ))
    (wd : ℕ) (h2 : 2 ≤ (validRows rows).length) (hw : 2 ≤ wd) :
    detect_trends rows wd ≠ .error "Insufficient recent data for trend analysis" := by
  rw [detect_trends_eq_ok rows wd h2 hw]
  intro h
  cases h

theorem c10_witness :
    2 ≤ (validRows [(some 5, some 1), (some 6, some 2)]).length
    ∧ (2 : ℕ) ≤ 2
    ∧ detect_trends [(some 5, some 1), (some 6, some 2)] 2
        ≠ .error "Insufficient recent data for trend analysis" :=
  ⟨by decide, by decide,
    c10_recent_error_unreachable [(some 5, some 1), (some 6, some 2)] 2
      (by decide) (by decide)⟩

theorem generate_forecast_eq_ok (rows : List (Option ℤ × Option ℚ))
    (periods : ℕ) (h10 : 10 ≤ (validRows rows).length) :
    generate_forecast rows periods = .ok (forecastPayload rows periods) := by
  unfold generate_forecast
  rw [if_neg (by omega), if_pos]
  rw [takeLast_length, sortedValues_length]
  omega

/-- C4: with at least 10 valid rows the forecast fits a least-squares
line over the trailing 14 rows of the date-sorted series and every
emitted period's bounds sit exactly `1.96 × residual-std` below and
above the extrapolated value; with fewer than 10 valid rows the call
returns the insufficient-data error. -/
theorem c4_forecast_bounds (rows : List (Option ℤ × Option ℚ)) (periods : ℕ) :
    (10 ≤ (validRows rows).length →
      ∃ p, generate_forecast rows periods = .ok p
        ∧ p.trend_slope = (polyfit1 (takeLast 14 (sortedValues rows))).1
        ∧ p.confidence_interval
            = (1.96 : ℝ) * residualStd (takeLast 14 (sortedValues rows))
        ∧ ∀ e ∈ p.forecast_data,
            e.lower_bound
              = e.forecast - (1.96 : ℝ) * residualStd (takeLast 14 (sortedValues rows))
            ∧ e.upper_bound
              = e.forecast + (1.96 : ℝ) * residualStd (takeLast 14 (sortedValues rows)))
    ∧ ((validRows rows).length < 10 →
        generate_forecast rows periods
          = .error "Insufficient data for forecasting (minimum 10 data points required)") := by
  constructor
  · intro h10
    refine ⟨forecastPayload rows periods, generate_forecast_eq_ok rows periods h10,
      rfl, rfl, ?_⟩
    intro e he
    simp only [forecastPayload, List.mem_map] at he
    obtain ⟨idx, -, rfl⟩ := he
    exact ⟨rfl, rfl⟩
  · intro h10
    unfold generate_forecast
    rw [if_pos (by omega)]

unseal Rat.inv Rat.mul Rat.add Rat.sub in
/-- C2 (code bug): a one-row table with a single numeric feature whose
name carries no spending/order keyword yields one cluster holding 100%
of the rows, yet its label is "Standard Segment", not the
"Mainstream Majority" the >40%-of-rows rule demands: the size fallback
of `_determine_cluster_type` compares the cluster size against
`len(cluster_info) * 0.4 = 1.2` — the length of the three-key dict —
instead of a row count, contradicting the source's own
"More than 40% of total" comment. -/
theorem c2_size_fallback_uses_dict_length :
    (segment_customers (constKMeansLib ([0], [[0]], 0))
        [[some 3]] ["region_code"] [true] 1).isOk = true
    ∧ segClusterPercs (segment_customers (constKMeansLib ([0], [[0]], 0))
        [[some 3]] ["region_code"] [true] 1) = [100]
    ∧ segClusterTypes (segment_customers (constKMeansLib ([0], [[0]], 0))
        [[some 3]] ["region_code"] [true] 1) = ["Standard Segment"]
    ∧ determine_cluster_type
        { size := 1, percentage := 100,
          characteristics := [("region_code", ⟨3, 3, none⟩)] }
        ["region_code"] = "Standard Segment" := by
  refine ⟨by decide, by decide, by decide, by decide⟩

theorem c4_witness :
    10 ≤ (validRows c4Rows).length
    ∧ ∃ p, generate_forecast c4Rows 5 = .ok p
        ∧ p.trend_slope = (polyfit1 (takeLast 14 (sortedValues c4Rows))).1
        ∧ p.confidence_interval
            = (1.96 : ℝ) * residualStd (takeLast 14 (sortedValues c4Rows))
        ∧ ∀ e ∈ p.forecast_data,
            e.lower_bound
              = e.forecast - (1.96 : ℝ) * residualStd (takeLast 14 (sortedValues c4Rows))
            ∧ e.upper_bound
              = e.forecast + (1.96 : ℝ) * residualStd (takeLast 14 (sortedValues c4Rows)) :=
  ⟨by decide, (c4_forecast_bounds c4Rows 5).1 (by decide)⟩

theorem nlargest_length (n : ℕ) (xs : List (α × ℚ)) :
    (nlargest n xs).length = min n xs.length := by
  unfold nlargest
  rw [List.length_take, (List.perm_insertionSort _ _).length_eq]

theorem nlargest_spec (n : ℕ) (xs : List (α × ℚ)) :
    ∀ x ∈ nlargest n xs, ∀ y ∈ xs, y ∉ nlargest n xs → y.2 ≤ x.2 := by
  intro x hx y hy hyn
  haveI : IsTotal (α × ℚ) fun a b => b.2 ≤ a.2 := ⟨fun a b => le_total b.2 a.2⟩
  haveI : IsTrans (α × ℚ) fun a b => b.2 ≤ a.2 :=
    ⟨fun a b c hab hbc => le_trans hbc hab⟩
  have hsorted := List.sorted_insertionSort (fun a b : α × ℚ => b.2 ≤ a.2) xs
  have hperm := List.perm_insertionSort (fun a b : α × ℚ => b.2 ≤ a.2) xs
  unfold nlargest at hx hyn
  have hy' : y ∈ List.insertionSort (fun a b : α × ℚ => b.2 ≤ a.2) xs :=
    hperm.mem_iff.2 hy
  have hsplit : y ∈ (List.insertionSort (fun a b : α × ℚ => b.2 ≤ a.2) xs).take n
      ++ (List.insertionSort (fun a b : α × ℚ => b.2 ≤ a.2) xs).drop n := by
    rw [List.take_append_drop]
    exact hy'
  rcases List.mem_append.1 hsplit with h | h
  · exact absurd h hyn
  · have h2 : List.Pairwise (fun a b : α × ℚ => b.2 ≤ a.2)
        ((List.insertionSort (fun a b : α × ℚ => b.2 ≤ a.2) xs).take n
          ++ (List.insertionSort (fun a b : α × ℚ => b.2 ≤ a.2) xs).drop n) := by
      rw [List.take_append_drop]
      exact hsorted
    exact (List.pairwise_append.1 h2).2.2 x hx y h

unseal Rat.inv Rat.mul Rat.add Rat.sub in
/-- C1 (counterexample to the claim as stated): with the documented
isolation-forest sign convention — every flagged row scores below zero,
lower = more anomalous — `nlargest(5, 'anomaly_score')` keeps the five
*least* anomalous flagged rows: on seven flagged rows with scores
`-1..-7` the report excludes the two most anomalous rows, so the top
anomalies are not the most anomalous ones. -/
theorem c1_counterexample :
    (∀ l ∈ anomLabels c1Lib c1Rows 1 (1 / 10), l = -1)
    ∧ (∀ s ∈ anomScores c1Lib c1Rows 1 (1 / 10), s < 0)
    ∧ ¬ topAreMostAnomalous c1Lib c1Rows 1 (1 / 10) := by
  refine ⟨by decide, by decide, by decide⟩

/-- C1 (amended): the reported `top_anomalies` are the (at most five)
flagged rows with the *largest* anomaly scores — under the library's
sign convention, the least anomalous flagged ones — every selected row
scoring at least as high as every excluded flagged row. -/
theorem c1_top_by_largest_score {α : Type} (lib : IsoLib)
    (rows : List (α × List (Option ℚ))) (ncols : ℕ) (c : ℚ)
    (hne : rows ≠ []) (hnc : ncols ≠ 0)
    (hnan : anyNaN (anomFilled rows ncols) = false) :
    ∃ p, detect_anomalies lib rows ncols c = .ok p
      ∧ p.top_anomalies = nlargest 5 (flaggedOf lib rows ncols c)
      ∧ p.top_anomalies.length = min 5 (flaggedOf lib rows ncols c).length
      ∧ ∀ x ∈ p.top_anomalies, ∀ y ∈ flaggedOf lib rows ncols c,
          y ∉ p.top_anomalies → y.2 ≤ x.2 := by
  have hok : detect_anomalies lib rows ncols c = .ok (anomPayload lib rows ncols c) := by
    unfold detect_anomalies
    rw [if_neg (by simp [List.isEmpty_iff, hne, hnc]), if_neg (by simp [hnan])]
  exact ⟨anomPayload lib rows ncols c, hok, rfl,
    nlargest_length 5 (flaggedOf lib rows ncols c),
    nlargest_spec 5 (flaggedOf lib rows ncols c)⟩

theorem c1_witness :
    c1Rows ≠ [] ∧ (1 : ℕ) ≠ 0
    ∧ anyNaN (anomFilled c1Rows 1) = false
    ∧ ∃ p, detect_anomalies c1Lib c1Rows 1 (1 / 10) = .ok p
        ∧ p.top_anomalies = nlargest 5 (flaggedOf c1Lib c1Rows 1 (1 / 10))
        ∧ p.top_anomalies.length = min 5 (flaggedOf c1Lib c1Rows 1 (1 / 10)).length
        ∧ ∀ x ∈ p.top_anomalies, ∀ y ∈ flaggedOf c1Lib c1Rows 1 (1 / 10),
            y ∉ p.top_anomalies → y.2 ≤ x.2 :=
  ⟨by decide, by decide, by decide,
    c1_top_by_largest_score c1Lib c1Rows 1 (1 / 10) (by decide) (by decide) (by decide)⟩

theorem sum_map_add (l : List α) (f g : α → ℕ) :
    (l.map fun x => f x + g x).sum = (l.map f).sum + (l.map g).sum := by
  induction l with
  | nil => simp
  | cons a t ih => simp [ih]; omega

theorem sum_indicator_range (a k : ℕ) (h : a < k) :
    ((List.range k).map fun i => if a = i then (1 : ℕ) else 0).sum = 1 := by
  induction k with
  | zero => omega
  | succ k ih =>
      rw [List.range_succ, List.map_append, List.sum_append]
      by_cases hak : a = k
      · subst hak
        have hz : ((List.range a).map fun i => if a = i then (1 : ℕ) else 0).sum = 0 := by
          apply List.sum_eq_zero
          intro x hx
          simp only [List.mem_map] at hx
          obtain ⟨i, hi, rfl⟩ := hx
          have : i < a := List.mem_range.1 hi
          rw [if_neg (by omega)]
        simp [hz]
      · have ha' : a < k := by omega
        rw [ih ha']
        simp [hak]

theorem sum_countP_range (l : List ℕ) (k : ℕ) (h : ∀ x ∈ l, x < k) :
    ((List.range k).map fun i => l.countP fun x => decide (x = i)).sum = l.length := by
  induction l with
  | nil => simp
  | cons a t ih =>
      have ha : a < k := h a (List.mem_cons_self a t)
      have ht : ∀ x ∈ t, x < k := fun x hx => h x (List.mem_cons_of_mem a hx)
      simp only [List.countP_cons, decide_eq_true_eq]
      rw [sum_map_add (List.range k) (fun i => t.countP fun x => decide (x = i))
        (fun i => if a = i then 1 else 0)]
      rw [ih ht, sum_indicator_range a k ha]
      simp

theorem clusterCells_length (cells : List (List (Option ℚ)))
    (labels : List ℕ) (i : ℕ) (hlen : labels.length = cells.length) :
    (clusterCells cells labels i).length = labels.countP fun x => decide (x = i) := by
  unfold clusterCells
  rw [List.length_map, ← List.countP_eq_length_filter]
  have hz : (cells.zip labels).map Prod.snd = labels :=
    List.map_snd_zip cells labels (le_of_eq hlen)
  calc (cells.zip labels).countP (fun rl => decide (rl.2 = i))
      = ((cells.zip labels).map Prod.snd).countP (fun x => decide (x = i)) := by
        rw [List.countP_map]; rfl
    _ = labels.countP fun x => decide (x = i) := by rw [hz]

/-- C6: whenever `segment_customers` succeeds, the result has exactly
`n_clusters` cluster entries and their sizes sum to the number of input
rows (the k-means contract: one label per row, labels in
`range n_clusters`). -/
theorem c6_cluster_sizes_partition (klib : KMeansLib)
    (cells : List (List (Option ℚ))) (features : List String)
    (mask : List Bool) (k : ℕ)
    (hlen : (segLabels klib cells features mask k).length = cells.length)
    (hlt : ∀ x ∈ segLabels klib cells features mask k, x < k)
    (hok : (segment_customers klib cells features mask k).isOk = true) :
    ∃ p, segment_customers klib cells features mask k = .ok p
      ∧ p.cluster_details.length = k
      ∧ (p.cluster_details.map (·.size)).sum = cells.length := by
  unfold segment_customers at hok ⊢
  by_cases h1 : cells.isEmpty = true ∨ (segSelIdx features mask).isEmpty = true
  · rw [if_pos h1] at hok
    exact absurd hok (by decide)
  · rw [if_neg h1] at hok ⊢
    by_cases h2 : anyNaN (segFilled cells features mask) = true
    · rw [if_pos h2] at hok
      exact absurd hok (by decide)
    · rw [if_neg h2] at hok ⊢
      by_cases h3 : 1 < (segDetails klib cells features mask k).length
      · rw [if_pos h3] at hok
        exact absurd hok (by decide)
      · rw [if_neg h3]
        refine ⟨segPayload klib cells features mask k, rfl, ?_, ?_⟩
        · simp [segPayload, segDetails, segInfos]
        · have hmap : (segDetails klib cells features mask k).map (·.size)
              = (List.range k).map fun i =>
                  (clusterCells cells (segLabels klib cells features mask k) i).length := by
            simp only [segDetails, segInfos, List.map_map]
            rfl
          show ((segDetails klib cells features mask k).map (·.size)).sum = cells.length
          rw [hmap]
          rw [List.map_congr_left fun i _ =>
            clusterCells_length cells (segLabels klib cells features mask k) i hlen]
          rw [sum_countP_range (segLabels klib cells features mask k) k hlt, hlen]

theorem c6_witness :
    (segLabels (constKMeansLib ([0], [[0]], 0)) [[some 3]] ["f"] [true] 1).length
        = [[some 3]].length
    ∧ (∀ x ∈ segLabels (constKMeansLib ([0], [[0]], 0)) [[some 3]] ["f"] [true] 1, x < 1)
    ∧ (segment_customers (constKMeansLib ([0], [[0]], 0)) [[some 3]] ["f"] [true] 1).isOk = true
    ∧ ∃ p, segment_customers (constKMeansLib ([0], [[0]], 0)) [[some 3]] ["f"] [true] 1 = .ok p
        ∧ p.cluster_details.length = 1
        ∧ (p.cluster_details.map (·.size)).sum = [[some 3]].length :=
  ⟨by decide, by decide, by decide,
    c6_cluster_sizes_partition (constKMeansLib ([0], [[0]], 0)) [[some 3]] ["f"] [true] 1
      (by decide) (by decide) (by decide)⟩

theorem pairList_swap (rows : List (List (Option ℚ))) (i j : ℕ) :
    pairList rows j i = (pairList rows i j).map Prod.swap := by
  induction rows with
  | nil => rfl
  | cons r t ih =>
      simp only [pairList] at ih ⊢
      simp only [List.filterMap_cons]
      cases hri : r.getD i none <;> cases hrj : r.getD j none <;>
        simp only [hri, hrj, List.map_cons, Prod.swap_prod_mk, ih]

theorem sDev2_map_fst_swap (ps : List (ℚ × ℚ)) :
    sDev2 ((ps.map Prod.swap).map Prod.fst) = sDev2 (ps.map Prod.snd) := by
  rw [List.map_map]
  exact congrArg sDev2 (List.map_congr_left fun p _ => rfl)

theorem sDev2_map_snd_swap (ps : List (ℚ × ℚ)) :
    sDev2 ((ps.map Prod.swap).map Prod.snd) = sDev2 (ps.map Prod.fst) := by
  rw [List.map_map]
  exact congrArg sDev2 (List.map_congr_left fun p _ => rfl)

theorem map_fst_swap (ps : List (ℚ × ℚ)) :
    (ps.map Prod.swap).map Prod.fst = ps.map Prod.snd := by
  rw [List.map_map]
  exact List.map_congr_left fun p _ => rfl

theorem map_snd_swap (ps : List (ℚ × ℚ)) :
    (ps.map Prod.swap).map Prod.snd = ps.map Prod.fst := by
  rw [List.map_map]
  exact List.map_congr_left fun p _ => rfl

theorem sCross_map_swap (ps : List (ℚ × ℚ)) :
    sCross (ps.map Prod.swap) = sCross ps := by
  unfold sCross
  rw [map_fst_swap, map_snd_swap, List.map_map]
  congr 1
  apply List.map_congr_left
  intro p _
  simp only [Function.comp_apply, Prod.fst_swap, Prod.snd_swap]
  ring

/-- The correlation matrix is symmetric. -/
theorem corrEntry_symm (rows : List (List (Option ℚ))) (i j : ℕ) :
    corrEntry rows j i = corrEntry rows i j := by
  unfold corrEntry
  rw [pairList_swap rows i j, sDev2_map_fst_swap, sDev2_map_snd_swap,
    sCross_map_swap]
  by_cases h : sDev2 ((pairList rows i j).map Prod.fst) = 0
      ∨ sDev2 ((pairList rows i j).map Prod.snd) = 0
  · rw [if_pos h.symm, if_pos h]
  · rw [if_neg (fun hc => h hc.symm), if_neg h, mul_comm]

theorem pairList_diag (rows : List (List (Option ℚ))) (i : ℕ) :
    pairList rows i i = (colCells rows i).map fun a => (a, a) := by
  induction rows with
  | nil => rfl
  | cons r t ih =>
      simp only [pairList, colCells] at ih ⊢
      simp only [List.filterMap_cons]
      cases hri : r.getD i none <;>
        simp only [hri, List.map_cons, ih]

theorem sDev2_nonneg (xs : List ℚ) : 0 ≤ sDev2 xs := by
  unfold sDev2
  apply List.sum_nonneg
  intro x hx
  obtain ⟨y, -, rfl⟩ := List.mem_map.1 hx
  positivity

/-- A diagonal entry over a column of nonzero centered sum of squares
is exactly 1. -/
theorem corrEntry_diag (rows : List (List (Option ℚ))) (i : ℕ)
    (h : sDev2 (colCells rows i) ≠ 0) : corrEntry rows i i = some 1 := by
  have hfst : (pairList rows i i).map Prod.fst = colCells rows i := by
    rw [pairList_diag, List.map_map,
      show (Prod.fst ∘ fun a : ℚ => (a, a)) = id from rfl, List.map_id]
  have hsnd : (pairList rows i i).map Prod.snd = colCells rows i := by
    rw [pairList_diag, List.map_map,
      show (Prod.snd ∘ fun a : ℚ => (a, a)) = id from rfl, List.map_id]
  have hcross : sCross (pairList rows i i) = sDev2 (colCells rows i) := by
    unfold sCross sDev2
    rw [hfst, hsnd, pairList_diag, List.map_map]
    congr 1
    apply List.map_congr_left
    intro a _
    simp only [Function.comp_apply]
    ring
  unfold corrEntry
  rw [hfst, hsnd, hcross, if_neg (by simp [h])]
  congr 1
  have h0 : (0 : ℝ) ≤ ((sDev2 (colCells rows i) : ℚ) : ℝ) := by
    exact_mod_cast sDev2_nonneg (colCells rows i)
  rw [Real.mul_self_sqrt h0]
  exact div_self (by exact_mod_cast h)

theorem strongCorrelations_spec (rows : List (List (Option ℚ)))
    (colNames : List String) :
    ∀ cp ∈ strongCorrelations rows colNames,
      corrEntry rows cp.i cp.j = some cp.correlation
        ∧ (0.7 : ℝ) < |cp.correlation| := by
  intro cp hcp
  simp only [strongCorrelations, List.mem_filterMap] at hcp
  obtain ⟨⟨i, j⟩, -, heq⟩ := hcp
  cases hE : corrEntry rows i j with
  | none => rw [hE] at heq; cases heq
  | some r =>
      rw [hE] at heq
      dsimp only at heq
      split at heq
      · cases heq
        exact ⟨hE, by assumption⟩
      · cases heq

/-- C3 (amended): whenever `calculate_correlations` succeeds, the matrix
is symmetric, every diagonal entry over a column with nonzero variance
(on its non-null rows) equals 1 (a constant column yields the `NaN`
entry `none` instead), and every reported strong pair carries |r| > 0.7
with its value equal to the corresponding matrix entry. -/
theorem c3_matrix_properties (rows : List (List (Option ℚ)))
    (colNames : List String) (hr : rows ≠ []) (hc : colNames ≠ []) :
    ∃ p, calculate_correlations rows colNames = .ok p
      ∧ (∀ i j, p.matrixEntry i j = p.matrixEntry j i)
      ∧ (∀ i, sDev2 (colCells rows i) ≠ 0 → p.matrixEntry i i = some 1)
      ∧ ∀ cp ∈ p.strong_correlations,
          p.matrixEntry cp.i cp.j = some cp.correlation
            ∧ (0.7 : ℝ) < |cp.correlation| := by
  refine ⟨corrPayload rows colNames, ?_, fun i j => corrEntry_symm rows j i,
    fun i hi => corrEntry_diag rows i hi, strongCorrelations_spec rows colNames⟩
  unfold calculate_correlations
  rw [if_neg (by simp [List.isEmpty_iff, hr, hc])]

theorem c3_witness :
    ([[some 1], [some 2]] : List (List (Option ℚ))) ≠ []
    ∧ (["x"] : List String) ≠ []
    ∧ ∃ p, calculate_correlations [[some 1], [some 2]] ["x"] = .ok p
        ∧ (∀ i j, p.matrixEntry i j = p.matrixEntry j i)
        ∧ (∀ i, sDev2 (colCells [[some 1], [some 2]] i) ≠ 0 → p.matrixEntry i i = some 1)
        ∧ ∀ cp ∈ p.strong_correlations,
            p.matrixEntry cp.i cp.j = some cp.correlation
              ∧ (0.7 : ℝ) < |cp.correlation| :=
  ⟨by decide, by decide,
    c3_matrix_properties [[some 1], [some 2]] ["x"] (by decide) (by decide)⟩

unseal Rat.inv Rat.mul Rat.add Rat.sub in
/-- C3 (counterexample to the claim as stated): on a two-row table whose
single numeric column is constant, `calculate_correlations` succeeds but
the diagonal matrix entry is pandas' `NaN` (modelled `none`), not 1: a
zero-variance column has no defined Pearson correlation with itself. -/
theorem c3_counterexample :
    (calculate_correlations [[some 5], [some 5]] ["amt"]).isOk = true
    ∧ corrMatOf (calculate_correlations [[some 5], [some 5]] ["amt"]) 0 0 = none
    ∧ corrMatOf (calculate_correlations [[some 5], [some 5]] ["amt"]) 0 0 ≠ some 1 := by
  have hnone : corrMatOf (calculate_correlations [[some 5], [some 5]] ["amt"]) 0 0
      = none := by
    show corrEntry [[some 5], [some 5]] 0 0 = none
    unfold corrEntry
    rw [if_pos
      (Or.inl (by decide :
        sDev2 ((pairList [[some 5], [some 5]] 0 0).map Prod.fst) = 0))]
  refine ⟨by decide, hnone, ?_⟩
  rw [hnone]
  simp

end Olynk
